import Mathlib

/-!
# GUI settings table (`src-gui/settings.h`)

The unit is a table of compile-time constants: framebuffer side, background
colour, light and Phong material parameters, the sphere resolution index and
the mouse / camera constants.  It contains no function.

Embedding.  Every `const float` literal is read as the exact decimal it is
written as, a rational number (`0.1f` is `1/10`, `2048.f` is `2048`).  Every
`const int` is an integer.  `const float x[4]` is a function on `Fin 4`, and
`glm::vec3` is a record of three coordinates.
-/

namespace Settings

/-- Three-component vector, the shape of `glm::vec3` brace initialisation. -/
structure vec3 where
  x : ℚ
  y : ℚ
  z : ℚ
  deriving DecidableEq, Repr

/-- Framebuffer texture square side length: `const float FBO_tex_a = 2048.f;` -/
def FBO_tex_a : ℚ := 2048

/-- Background color for views: `const float bgrgb[4] = {0.0f,0.0f,0.0f,1.0f};` -/
def bgrgb : Fin 4 → ℚ := ![0, 0, 0, 1]

/-- Light position: `const glm::vec3 lightPos = {20.f,20.f,0.f};` -/
def lightPos : vec3 := ⟨20, 20, 0⟩

/-- Light colour: `const glm::vec3 lightColor = {1.f,1.f,1.f};` -/
def lightColor : vec3 := ⟨1, 1, 1⟩

/-- Ambient coefficient: `const float ambient = 0.2f;` -/
def ambient : ℚ := 2 / 10

/-- Diffuse coefficient: `const float diffuse = 0.4f;` -/
def diffuse : ℚ := 4 / 10

/-- Specular coefficient: `const float specular = 0.6f;` -/
def specular : ℚ := 6 / 10

/-- Phong exponent: `const int shininess = 8;` -/
def shininess : ℤ := 8

/-- Atom and bond resolution, commented `0 -> nmaxsph-1`: `const int isphres = 3;` -/
def isphres : ℤ := 3

/-- Mouse rotate sensitivity: `const float mousesens_rot = 2.0f;` -/
def mousesens_rot : ℚ := 2

/-- Mouse zoom sensitivity: `const float mousesens_zoom = 0.15f;` -/
def mousesens_zoom : ℚ := 15 / 100

/-- Field of view for the perspective: `const float zfov = 45.f;` -/
def zfov : ℚ := 45

/-- Near clip plane of the camera: `const float znear = 0.1f;` -/
def znear : ℚ := 1 / 10

/-- Far clip plane of the camera: `const float zfar = 1000.f;` -/
def zfar : ℚ := 1000

/-- Minimum distance to origin (zoom): `const float min_zoom = 1.f;` -/
def min_zoom : ℚ := 1

/-- The range the source comment gives for the resolution index, `0 -> nmaxsph-1`,
over a table size `nmaxsph` that this unit does not define. -/
def isphresInRange (nmaxsph : ℤ) : Prop := 0 ≤ isphres ∧ isphres ≤ nmaxsph - 1

instance (nmaxsph : ℤ) : Decidable (isphresInRange nmaxsph) := by
  unfold isphresInRange
  infer_instance

/-- A colour channel or reflectance coefficient lies in the closed unit interval. -/
def inUnit (c : ℚ) : Prop := 0 ≤ c ∧ c ≤ 1

instance (c : ℚ) : Decidable (inUnit c) := by
  unfold inUnit
  infer_instance

/-! ## Camera -/

/-- C1: the shipped clip planes are `znear = 1/10` and `zfar = 1000`; both are
strictly positive and `znear < zfar`, so the depth range is non-degenerate. -/
theorem clip_planes_ordered :
    znear = 1 / 10 ∧ zfar = 1000 ∧ 0 < znear ∧ 0 < zfar ∧ znear < zfar := by
  refine ⟨rfl, rfl, ?_, ?_, ?_⟩ <;> norm_num [znear, zfar]

/-- C2: the shipped minimum zoom distance is `1`; it is strictly positive and not
below the near clip plane `1/10`, so the camera cannot zoom inside the near plane
(the flagged condition `min_zoom < znear` does not hold). -/
theorem min_zoom_outside_near_plane :
    min_zoom = 1 ∧ znear = 1 / 10 ∧ 0 < min_zoom ∧ znear ≤ min_zoom ∧ ¬ min_zoom < znear := by
  refine ⟨rfl, rfl, ?_, ?_, ?_⟩ <;> norm_num [znear, min_zoom]

/-- C8: the shipped field of view is `45` degrees and lies strictly between `0`
and `180`. -/
theorem zfov_in_open_range : zfov = 45 ∧ 0 < zfov ∧ zfov < 180 := by
  refine ⟨rfl, ?_, ?_⟩ <;> norm_num [zfov]

/-! ## Tessellation -/

/-- C3: the resolution index `isphres` is non-negative, and for every integer table
size `nmaxsph` it is within the commented range `0 -> nmaxsph-1` (that is,
`isphres ≤ nmaxsph - 1`) exactly when `nmaxsph ≥ 4`. -/
theorem isphres_in_range_iff :
    0 ≤ isphres ∧
      (∀ nmaxsph : ℤ, isphres ≤ nmaxsph - 1 ↔ 4 ≤ nmaxsph) ∧
      (∀ nmaxsph : ℤ, isphresInRange nmaxsph ↔ 4 ≤ nmaxsph) := by
  refine ⟨by decide, ?_, ?_⟩
  · intro nmaxsph
    simp only [isphres]
    omega
  · intro nmaxsph
    simp only [isphresInRange, isphres]
    omega

/-! ## Colours and material -/

/-- C4: each of the four RGBA entries of `bgrgb` (`0, 0, 0, 1`) and each of the three
components of `lightColor` (`1, 1, 1`) is at least `0` and at most `1`. -/
theorem colour_channels_in_unit :
    (∀ i : Fin 4, 0 ≤ bgrgb i ∧ bgrgb i ≤ 1) ∧
      (0 ≤ lightColor.x ∧ lightColor.x ≤ 1) ∧
      (0 ≤ lightColor.y ∧ lightColor.y ≤ 1) ∧
      (0 ≤ lightColor.z ∧ lightColor.z ≤ 1) ∧
      bgrgb = ![0, 0, 0, 1] ∧ lightColor = ⟨1, 1, 1⟩ := by
  refine ⟨?_, ?_, ?_, ?_, rfl, rfl⟩
  · intro i
    fin_cases i <;> norm_num [bgrgb]
  all_goals norm_num [lightColor]

/-- C5: the shipped Phong parameters are in range: `ambient = 1/5`, `diffuse = 2/5`
and `specular = 3/5` each lie in `[0,1]`, and the integer `shininess = 8` is
non-negative. -/
theorem material_in_range :
    ambient = 1 / 5 ∧ diffuse = 2 / 5 ∧ specular = 3 / 5 ∧ shininess = 8 ∧
      inUnit ambient ∧ inUnit diffuse ∧ inUnit specular ∧ 0 ≤ shininess := by
  refine ⟨?_, ?_, ?_, rfl, ?_, ?_, ?_, by decide⟩ <;>
    norm_num [ambient, diffuse, specular, inUnit]

/-- C10: the sum `ambient + diffuse + specular` of the shipped reflectance
coefficients is exactly `6/5`; it is strictly greater than `1` and at most `3`. -/
theorem reflectance_sum :
    ambient + diffuse + specular = 6 / 5 ∧
      1 < ambient + diffuse + specular ∧ ambient + diffuse + specular ≤ 3 := by
  refine ⟨?_, ?_, ?_⟩ <;> norm_num [ambient, diffuse, specular]

/-! ## Framebuffer and mouse -/

/-- C6: the framebuffer side `FBO_tex_a` is strictly positive, is an integer value,
and is a power of two: `FBO_tex_a = 2 ^ 11`, so some natural `k` has
`FBO_tex_a = 2 ^ k`. -/
theorem FBO_tex_a_power_of_two :
    0 < FBO_tex_a ∧ FBO_tex_a.den = 1 ∧ FBO_tex_a = ((2048 : ℤ) : ℚ) ∧
      FBO_tex_a = 2 ^ 11 ∧ ∃ k : ℕ, FBO_tex_a = 2 ^ k := by
  refine ⟨?_, ?_, ?_, ?_, 11, ?_⟩ <;> norm_num [FBO_tex_a]

/-- C7: both shipped mouse sensitivities are strictly positive: `mousesens_rot = 2`
and `mousesens_zoom = 3/20`. -/
theorem mouse_sensitivities_positive :
    mousesens_rot = 2 ∧ mousesens_zoom = 3 / 20 ∧ 0 < mousesens_rot ∧ 0 < mousesens_zoom := by
  refine ⟨rfl, ?_, ?_, ?_⟩ <;> norm_num [mousesens_rot, mousesens_zoom]

end Settings
